import Mathlib

/-!
# Verification of the Shopify webhook relay lambda (`src/lambda/app.py`)

A shallow embedding of the single Python source file `src/lambda/app.py`:

* bytes are `List Nat` (each element a byte value);
* the Python standard-library primitives the source calls
  (`hashlib.sha256`, `hmac.new(...).digest()`, `base64.b64encode`,
  `base64.b64decode`, `str.encode('utf-8')`, `json.dumps`,
  `hmac.compare_digest`) are implemented executably below, following the
  CPython semantics including the error cases that raise;
* the network (`urllib.request.urlopen`) is an oracle
  `MaistroRequest → NetOutcome` passed as an explicit argument: the four
  outcome constructors correspond to a completed exchange returned by
  `urlopen`, a raised `urllib.error.HTTPError`, a raised
  `urllib.error.URLError` (connection-level failure, including connect
  timeouts, which urllib wraps in `URLError`), and any other exception;
* exception propagation out of `lambda_handler` is modelled with
  `Except PyErr`; `print` logging is a pure side effect and is dropped;
* in addition to the response, `lambda_handler` returns the outbound
  request it issued (`Option MaistroRequest`): `none` means the forwarder
  was never invoked, so "no outbound call occurs" is directly observable.
-/

set_option maxRecDepth 8192

namespace WebhookApp

/-! ## 32-bit word arithmetic on `Nat` -/

/-- Addition modulo 2^32, the word addition used throughout SHA-256. -/
def add32 (a b : Nat) : Nat := (a + b) % 4294967296

/-- Rotate the 32-bit word `x` right by `n` bit positions. -/
def rotr32 (n x : Nat) : Nat := ((x >>> n) ||| (x <<< (32 - n))) % 4294967296

/-! ## SHA-256 (`hashlib.sha256`) -/

/-- SHA-256 `Ch` function. `¬x` within 32 bits is `x ^^^ 0xffffffff`. -/
def shaCh (x y z : Nat) : Nat := (x &&& y) ^^^ ((x ^^^ 4294967295) &&& z)

/-- SHA-256 `Maj` function. -/
def shaMaj (x y z : Nat) : Nat := (x &&& y) ^^^ (x &&& z) ^^^ (y &&& z)

/-- SHA-256 small sigma 0 (message schedule). -/
def shaSig0 (x : Nat) : Nat := rotr32 7 x ^^^ rotr32 18 x ^^^ (x >>> 3)

/-- SHA-256 small sigma 1 (message schedule). -/
def shaSig1 (x : Nat) : Nat := rotr32 17 x ^^^ rotr32 19 x ^^^ (x >>> 10)

/-- SHA-256 big Sigma 0 (compression). -/
def shaBig0 (x : Nat) : Nat := rotr32 2 x ^^^ rotr32 13 x ^^^ rotr32 22 x

/-- SHA-256 big Sigma 1 (compression). -/
def shaBig1 (x : Nat) : Nat := rotr32 6 x ^^^ rotr32 11 x ^^^ rotr32 25 x

/-- The 64 SHA-256 round constants (FIPS 180-4), in decimal. -/
def shaK : List Nat :=
  [1116352408, 1899447441, 3049323471, 3921009573, 961987163, 1508970993,
   2453635748, 2870763221, 3624381080, 310598401, 607225278, 1426881987,
   1925078388, 2162078206, 2614888103, 3248222580, 3835390401, 4022224774,
   264347078, 604807628, 770255983, 1249150122, 1555081692, 1996064986,
   2554220882, 2821834349, 2952996808, 3210313671, 3336571891, 3584528711,
   113926993, 338241895, 666307205, 773529912, 1294757372, 1396182291,
   1695183700, 1986661051, 2177026350, 2456956037, 2730485921, 2820302411,
   3259730800, 3345764771, 3516065817, 3600352804, 4094571909, 275423344,
   430227734, 506948616, 659060556, 883997877, 958139571, 1322822218,
   1537002063, 1747873779, 1955562222, 2024104815, 2227730452, 2361852424,
   2428436474, 2756734187, 3204031479, 3329325298]

/-- The SHA-256 hash state: eight 32-bit words. -/
structure ShaState where
  a : Nat
  b : Nat
  c : Nat
  d : Nat
  e : Nat
  f : Nat
  g : Nat
  h : Nat
deriving Repr, DecidableEq

/-- SHA-256 initial hash value (FIPS 180-4), in decimal. -/
def shaInit : ShaState :=
  ⟨1779033703, 3144134277, 1013904242, 2773480762,
   1359893119, 2600822924, 528734635, 1541459225⟩

/-- One SHA-256 compression round, consuming a schedule word and a constant. -/
def shaRound (st : ShaState) (wk : Nat × Nat) : ShaState :=
  let t1 := add32 st.h (add32 (shaBig1 st.e) (add32 (shaCh st.e st.f st.g) (add32 wk.2 wk.1)))
  let t2 := add32 (shaBig0 st.a) (shaMaj st.a st.b st.c)
  ⟨add32 t1 t2, st.a, st.b, st.c, add32 st.d t1, st.e, st.f, st.g⟩

/-- Extend a 16-word block to the full 64-word message schedule; the `Nat`
argument is the number of words still to append (48 for one block). -/
def shaExtend : List Nat → Nat → List Nat
  | w, 0 => w
  | w, n + 1 =>
    let t := add32 (add32 (shaSig1 (w.getD (w.length - 2) 0)) (w.getD (w.length - 7) 0))
                   (add32 (shaSig0 (w.getD (w.length - 15) 0)) (w.getD (w.length - 16) 0))
    shaExtend (w ++ [t]) n

/-- Pointwise `add32` of two hash states (the feed-forward after compression). -/
def shaAdd (s t : ShaState) : ShaState :=
  ⟨add32 s.a t.a, add32 s.b t.b, add32 s.c t.c, add32 s.d t.d,
   add32 s.e t.e, add32 s.f t.f, add32 s.g t.g, add32 s.h t.h⟩

/-- Four big-endian bytes to one 32-bit word. -/
def word4 (b0 b1 b2 b3 : Nat) : Nat := ((b0 * 256 + b1) * 256 + b2) * 256 + b3

/-- Group a byte list into big-endian 32-bit words (the list length is a
multiple of 4 whenever this is reached from `sha256`). -/
def bytesToWords : List Nat → List Nat
  | b0 :: b1 :: b2 :: b3 :: rest => word4 b0 b1 b2 b3 :: bytesToWords rest
  | _ => []

/-- One 32-bit word to four big-endian bytes. -/
def wordToBytes (w : Nat) : List Nat :=
  [w / 16777216 % 256, w / 65536 % 256, w / 256 % 256, w % 256]

/-- Process one padded 64-byte block. -/
def shaBlock (st : ShaState) (block : List Nat) : ShaState :=
  let w := shaExtend (bytesToWords block) 48
  shaAdd st ((w.zip shaK).foldl shaRound st)

/-- Process a padded message 64 bytes at a time; the fuel argument (an upper
bound on the block count, instantiated with the byte length) makes the
recursion structural so that proofs can evaluate it. -/
def shaBlocksAux : Nat → ShaState → List Nat → ShaState
  | 0, st, _ => st
  | fuel + 1, st, bs =>
    if bs.length < 64 then st
    else shaBlocksAux fuel (shaBlock st (bs.take 64)) (bs.drop 64)

/-- Process a padded message 64 bytes at a time. -/
def shaBlocks (st : ShaState) (bs : List Nat) : ShaState :=
  shaBlocksAux bs.length st bs

/-- Big-endian encoding of `n` in `k` bytes (used for the 64-bit length field). -/
def beBytes : Nat → Nat → List Nat
  | 0, _ => []
  | k + 1, n => beBytes k (n / 256) ++ [n % 256]

/-- SHA-256 padding: append `0x80`, zeros to 56 mod 64, then the 64-bit
big-endian bit length. -/
def shaPad (msg : List Nat) : List Nat :=
  msg ++ 128 :: List.replicate ((119 - msg.length % 64) % 64) 0 ++ beBytes 8 (msg.length * 8)

/-- `hashlib.sha256(msg).digest()`: the 32-byte SHA-256 digest of `msg`. -/
def sha256 (msg : List Nat) : List Nat :=
  let st := shaBlocks shaInit (shaPad msg)
  wordToBytes st.a ++ wordToBytes st.b ++ wordToBytes st.c ++ wordToBytes st.d ++
  wordToBytes st.e ++ wordToBytes st.f ++ wordToBytes st.g ++ wordToBytes st.h

/-! ## HMAC-SHA256 (`hmac.new(key, msg, hashlib.sha256).digest()`) -/

/-- HMAC-SHA256 per RFC 2104 with the 64-byte SHA-256 block size: keys longer
than a block are hashed first, then zero-padded; inner pad `0x36`, outer `0x5c`. -/
def hmacSha256 (key msg : List Nat) : List Nat :=
  let k0 := if 64 < key.length then sha256 key else key
  let kp := k0 ++ List.replicate (64 - k0.length) 0
  sha256 (kp.map (· ^^^ 92) ++ sha256 (kp.map (· ^^^ 54) ++ msg))

/-! ## UTF-8 encoding (`str.encode('utf-8')`) -/

/-- Standard UTF-8 encoding of one Unicode scalar value. -/
def utf8EncodeChar (c : Char) : List Nat :=
  let n := c.toNat
  if n < 128 then [n]
  else if n < 2048 then [192 + n / 64, 128 + n % 64]
  else if n < 65536 then [224 + n / 4096, 128 + n / 64 % 64, 128 + n % 64]
  else [240 + n / 262144, 128 + n / 4096 % 64, 128 + n / 64 % 64, 128 + n % 64]

/-- `s.encode('utf-8')` as a byte list. -/
def utf8Encode (s : String) : List Nat := (s.toList.map utf8EncodeChar).flatten

/-! ## Base64 (`base64.b64encode` / `base64.b64decode`) -/

/-- The standard base64 alphabet, as a function from a 6-bit value. -/
def b64Char (n : Nat) : Char :=
  if n < 26 then Char.ofNat (65 + n)
  else if n < 52 then Char.ofNat (97 + (n - 26))
  else if n < 62 then Char.ofNat (48 + (n - 52))
  else if n = 62 then '+'
  else '/'

/-- Base64-encode a byte list, three bytes to four characters, `=`-padded. -/
def b64encodeChars : List Nat → List Char
  | [] => []
  | [a] => [b64Char (a / 4), b64Char (a % 4 * 16), '=', '=']
  | [a, b] => [b64Char (a / 4), b64Char (a % 4 * 16 + b / 16), b64Char (b % 16 * 4), '=']
  | a :: b :: c :: rest =>
    b64Char (a / 4) :: b64Char (a % 4 * 16 + b / 16) :: b64Char (b % 16 * 4 + c / 64) ::
    b64Char (c % 64) :: b64encodeChars rest

/-- `base64.b64encode(bs).decode('utf-8')`: base64 encoding as a string. -/
def b64encode (bs : List Nat) : String := ⟨b64encodeChars bs⟩

/-- Value of a base64 alphabet character; `none` for non-alphabet characters
(which CPython's non-strict decoder discards). -/
def b64CharVal (c : Char) : Option Nat :=
  let n := c.toNat
  if 65 ≤ n ∧ n ≤ 90 then some (n - 65)
  else if 97 ≤ n ∧ n ≤ 122 then some (n - 97 + 26)
  else if 48 ≤ n ∧ n ≤ 57 then some (n - 48 + 52)
  else if n = 43 then some 62
  else if n = 47 then some 63
  else none

/-- Python exceptions that the embedding tracks when they propagate. -/
inductive PyErr where
  /-- `binascii.Error`, raised by `base64.b64decode` on bad padding. -/
  | binasciiError (msg : String)
  /-- `ValueError`, raised by `base64.b64decode` on a non-ASCII `str` argument. -/
  | valueError (msg : String)
  /-- `UnicodeDecodeError`, raised by `bytes.decode('utf-8')` on invalid
  UTF-8; carries the `str(e)` text CPython formats for it. -/
  | unicodeDecodeError (msg : String)
deriving Repr, DecidableEq

/-- `str(e)` of a tracked exception: the message it was raised with. -/
def pyErrStr : PyErr → String
  | .binasciiError m => m
  | .valueError m => m
  | .unicodeDecodeError m => m

/-- Equality of `Except` results is decidable componentwise. -/
instance exceptDecEq {ε α : Type} [DecidableEq ε] [DecidableEq α] :
    DecidableEq (Except ε α) := fun x y =>
  match x, y with
  | .ok a, .ok b =>
    if h : a = b then .isTrue (by rw [h]) else .isFalse (fun hc => h (by cases hc; rfl))
  | .error a, .error b =>
    if h : a = b then .isTrue (by rw [h]) else .isFalse (fun hc => h (by cases hc; rfl))
  | .ok _, .error _ => .isFalse (fun hc => by cases hc)
  | .error _, .ok _ => .isFalse (fun hc => by cases hc)

/-- The quad-position state machine of CPython's non-strict
`binascii.a2b_base64`: accumulate 6 bits per alphabet character, emit bytes at
quad positions 2, 3 and 4; `=` at quad position ≥ 2 completing the quad ends
the data; non-alphabet characters are discarded; a final partial quad is an
error (`Incorrect padding` / data length 1 more than a multiple of 4). -/
def a2bBase64 : List Char → Nat → Nat → Nat → List Nat → Except PyErr (List Nat)
  | [], quadPos, _, _, out =>
    if quadPos = 0 then .ok out.reverse
    else .error (.binasciiError "Incorrect padding")
  | c :: rest, quadPos, leftchar, pads, out =>
    if c = '=' then
      if 2 ≤ quadPos ∧ 4 ≤ quadPos + (pads + 1) then .ok out.reverse
      else a2bBase64 rest quadPos leftchar (pads + 1) out
    else
      match b64CharVal c with
      | none => a2bBase64 rest quadPos leftchar pads out
      | some d =>
        match quadPos with
        | 0 => a2bBase64 rest 1 d 0 out
        | 1 => a2bBase64 rest 2 (d % 16) 0 ((leftchar * 4 + d / 16) :: out)
        | 2 => a2bBase64 rest 3 (d % 4) 0 ((leftchar * 16 + d / 4) :: out)
        | _ => a2bBase64 rest 0 0 0 ((leftchar * 64 + d) :: out)

/-- `base64.b64decode(s)` on a `str` argument: rejects non-ASCII input with
`ValueError`, then runs the non-strict `a2b_base64` state machine. -/
def b64decodePy (s : String) : Except PyErr (List Nat) :=
  if s.toList.all (fun c => c.toNat < 128) then a2bBase64 s.toList 0 0 0 []
  else .error (.valueError "string argument should contain only ASCII characters")

/-! ## `json.dumps` (default options: `ensure_ascii=True`, separators `, ` `: `) -/

/-- Lowercase hexadecimal digit. -/
def hexDigit (n : Nat) : Char :=
  if n < 10 then Char.ofNat (48 + n) else Char.ofNat (87 + n)

/-- Four lowercase hex digits, as in a `\uXXXX` escape. -/
def hex4 (n : Nat) : String :=
  ⟨[hexDigit (n / 4096 % 16), hexDigit (n / 256 % 16), hexDigit (n / 16 % 16), hexDigit (n % 16)]⟩

/-- CPython `json` escaping of one character with `ensure_ascii=True`:
printable ASCII other than `"` and `\` is literal; the short escapes
`\b \t \n \f \r` apply; every other character becomes `\uXXXX`, with a
surrogate pair above the BMP. -/
def jsonEscapeChar (c : Char) : String :=
  if c = '"' then "\\\""
  else if c = '\\' then "\\\\"
  else if c.toNat = 8 then "\\b"
  else if c.toNat = 9 then "\\t"
  else if c.toNat = 10 then "\\n"
  else if c.toNat = 12 then "\\f"
  else if c.toNat = 13 then "\\r"
  else if 32 ≤ c.toNat ∧ c.toNat ≤ 126 then String.singleton c
  else if c.toNat < 65536 then "\\u" ++ hex4 c.toNat
  else "\\u" ++ hex4 (55296 + (c.toNat - 65536) / 1024) ++
       "\\u" ++ hex4 (56320 + (c.toNat - 65536) % 1024)

/-- A JSON string literal as `json.dumps` renders it. -/
def jsonStr (s : String) : String :=
  "\"" ++ String.join (s.toList.map jsonEscapeChar) ++ "\""

/-- The JSON values the source ever serializes: strings and integers. -/
inductive JsonVal where
  | str (s : String)
  | nat (n : Nat)
deriving Repr, DecidableEq

/-- One serialized JSON value. -/
def jsonDumpVal : JsonVal → String
  | .str s => jsonStr s
  | .nat n => toString n

/-- `json.dumps` of a flat object with the source's key order and CPython's
default separators `", "` and `": "`. -/
def jsonDumps (obj : List (String × JsonVal)) : String :=
  "\x7b" ++ String.intercalate ", " (obj.map fun p => jsonStr p.1 ++ ": " ++ jsonDumpVal p.2) ++ "\x7d"

/-! ## UTF-8 decoding (`bytes.decode('utf-8')`, strict errors)

CPython's strict UTF-8 decoder raises `UnicodeDecodeError` at the first
invalid sequence. Its message reports a single byte
(`can't decode byte 0xXX in position N`) when the offending span is one byte
— a standalone invalid byte, or a lead byte whose *first* continuation is
outside the range that lead allows (which also catches overlong forms and
surrogates) — and a span (`can't decode bytes in position N-M`) when one or
more valid continuation bytes were consumed before the failure. The reason is
`invalid start byte`, `invalid continuation byte` or `unexpected end of data`.
These rules were validated against CPython on the examples below. -/

/-- Two lowercase hex digits of a byte, as in `0xff`. -/
def hex2 (n : Nat) : String := ⟨[hexDigit (n / 16 % 16), hexDigit (n % 16)]⟩

/-- `str(e)` of a `UnicodeDecodeError` whose span is the single byte `b` at
position `pos`. -/
def udeByteMsg (b pos : Nat) (reason : String) : String :=
  "'utf-8' codec can't decode byte 0x" ++ hex2 b ++ " in position " ++ toString pos ++
    ": " ++ reason

/-- `str(e)` of a `UnicodeDecodeError` spanning positions `start` to
`last` (inclusive). -/
def udeSpanMsg (start last : Nat) (reason : String) : String :=
  "'utf-8' codec can't decode bytes in position " ++ toString start ++ "-" ++ toString last ++
    ": " ++ reason

/-- The strict UTF-8 decoding loop: `pos` is the index of the current byte in
the original input, `acc` the decoded characters in reverse. The constrained
first-continuation ranges (`E0`: A0-BF, `ED`: 80-9F, `F0`: 90-BF, `F4`:
80-8F) reject overlong encodings, surrogates and values above U+10FFFF, so
every scalar value built here is a valid `Char`. -/
def utf8DecodeAux : List Nat → Nat → List Char → Except PyErr String
  | [], _, acc => .ok ⟨acc.reverse⟩
  | b :: rest, pos, acc =>
    if b < 128 then
      utf8DecodeAux rest (pos + 1) (Char.ofNat b :: acc)
    else if b < 194 then
      .error (.unicodeDecodeError (udeByteMsg b pos "invalid start byte"))
    else if b < 224 then
      match rest with
      | [] => .error (.unicodeDecodeError (udeByteMsg b pos "unexpected end of data"))
      | c1 :: rest1 =>
        if 128 ≤ c1 ∧ c1 ≤ 191 then
          utf8DecodeAux rest1 (pos + 2) (Char.ofNat ((b - 192) * 64 + (c1 - 128)) :: acc)
        else .error (.unicodeDecodeError (udeByteMsg b pos "invalid continuation byte"))
    else if b < 240 then
      match rest with
      | [] => .error (.unicodeDecodeError (udeByteMsg b pos "unexpected end of data"))
      | c1 :: rest1 =>
        if (if b = 224 then 160 else 128) ≤ c1 ∧ c1 ≤ (if b = 237 then 159 else 191) then
          match rest1 with
          | [] => .error (.unicodeDecodeError (udeSpanMsg pos (pos + 1) "unexpected end of data"))
          | c2 :: rest2 =>
            if 128 ≤ c2 ∧ c2 ≤ 191 then
              utf8DecodeAux rest2 (pos + 3)
                (Char.ofNat ((b - 224) * 4096 + (c1 - 128) * 64 + (c2 - 128)) :: acc)
            else .error (.unicodeDecodeError (udeSpanMsg pos (pos + 1) "invalid continuation byte"))
        else .error (.unicodeDecodeError (udeByteMsg b pos "invalid continuation byte"))
    else if b < 245 then
      match rest with
      | [] => .error (.unicodeDecodeError (udeByteMsg b pos "unexpected end of data"))
      | c1 :: rest1 =>
        if (if b = 240 then 144 else 128) ≤ c1 ∧ c1 ≤ (if b = 244 then 143 else 191) then
          match rest1 with
          | [] => .error (.unicodeDecodeError (udeSpanMsg pos (pos + 1) "unexpected end of data"))
          | c2 :: rest2 =>
            if 128 ≤ c2 ∧ c2 ≤ 191 then
              match rest2 with
              | [] =>
                .error (.unicodeDecodeError (udeSpanMsg pos (pos + 2) "unexpected end of data"))
              | c3 :: rest3 =>
                if 128 ≤ c3 ∧ c3 ≤ 191 then
                  utf8DecodeAux rest3 (pos + 4)
                    (Char.ofNat ((b - 240) * 262144 + (c1 - 128) * 4096 + (c2 - 128) * 64 +
                      (c3 - 128)) :: acc)
                else
                  .error (.unicodeDecodeError (udeSpanMsg pos (pos + 2) "invalid continuation byte"))
            else .error (.unicodeDecodeError (udeSpanMsg pos (pos + 1) "invalid continuation byte"))
        else .error (.unicodeDecodeError (udeByteMsg b pos "invalid continuation byte"))
    else
      .error (.unicodeDecodeError (udeByteMsg b pos "invalid start byte"))

/-- `bs.decode('utf-8')`: the decoded string, or the `UnicodeDecodeError`
CPython raises. -/
def utf8DecodePy (bs : List Nat) : Except PyErr String := utf8DecodeAux bs 0 []

/-! ## `verify_shopify_signature` (app.py lines 11-38) -/

/-- `hmac.compare_digest` on two `str` arguments: defined (and then a plain,
timing-independent equality) when both are ASCII-only; a non-ASCII argument
raises `TypeError`, modelled as `none`. -/
def compare_digest (a b : String) : Option Bool :=
  if a.toList.all (fun c => c.toNat < 128) ∧ b.toList.all (fun c => c.toNat < 128) then
    some (a == b)
  else none

/-- `verify_shopify_signature(data, hmac_header, secret)`: recompute
HMAC-SHA256 of `data` with the UTF-8 bytes of `secret` as key, base64-encode
it, and compare with `hmac_header` via `compare_digest`; the surrounding
`try/except` turns any exception (the `TypeError` case) into `False`. -/
def verify_shopify_signature (data : List Nat) (hmac_header : String) (secret : String) : Bool :=
  let computed_hmac := hmacSha256 (utf8Encode secret) data
  let computed_hmac_b64 := b64encode computed_hmac
  match compare_digest computed_hmac_b64 hmac_header with
  | some r => r
  | none => false

/-! ## `forward_to_maistro` (app.py lines 41-93) -/

/-- The outbound HTTP request `forward_to_maistro` builds
(`urllib.request.Request(url, data=payload, headers=headers, method='POST')`). -/
structure MaistroRequest where
  url : String
  headers : List (String × String)
  data : List Nat
  method : String
deriving Repr, DecidableEq

/-- What `urllib.request.urlopen` does with a request — the four cases the
source distinguishes with its `try/except` chain. Response bodies are RAW
BYTES, exactly what `.read()` yields; decoding them is the source's job and
can itself fail. -/
inductive NetOutcome where
  /-- `urlopen` returns: a completed exchange with this status and raw body. -/
  | response (status : Nat) (body : List Nat)
  /-- `urllib.error.HTTPError` raised: a completed exchange with an error
  status; `fp` is the readable raw response body when present. -/
  | httpError (code : Nat) (fp : Option (List Nat)) (msg : String)
  /-- `urllib.error.URLError` raised: connection-level failure (DNS, TCP,
  TLS, connect timeout) — the request never completed. -/
  | urlError (msg : String)
  /-- Any other exception raised during the exchange. -/
  | otherError (msg : String)
deriving Repr, DecidableEq

/-- The request `forward_to_maistro` constructs: the URL interpolates the
instance id into the fixed endpoint template, and the five headers are
content type, API key, `overrideschema` forced to `'true'`, the override
agent, and the debug flag. -/
def buildMaistroRequest (payload : List Nat) (api_key override_agent debug instance_id : String) :
    MaistroRequest :=
  ⟨"https://api-usw.neuralseek.com/v1/" ++ instance_id ++ "/maistro",
   [("Content-Type", "application/json"), ("apikey", api_key),
    ("overrideschema", "true"), ("overrideagent", override_agent), ("debug", debug)],
   payload, "POST"⟩

/-- `forward_to_maistro(payload, api_key, override_agent, debug, instance_id)`
given the network oracle `net`. Mirrors the source's exception handling:

* `urlopen` returns: `response.read().decode('utf-8')` runs inside the `try`,
  so a `UnicodeDecodeError` there is caught by the final `except Exception`
  and converted to `(500, json.dumps({'error': str(e)}))`; otherwise the
  status and decoded body are returned;
* `except HTTPError`: `e.read().decode('utf-8')` runs INSIDE the except
  clause (line 85), so its `UnicodeDecodeError` is caught by no sibling
  clause and propagates to the caller (`Except.error`); with a decodable
  body, `(e.code, body)` is returned; with no `e.fp`, `(e.code, str(e))`;
* `except URLError`: `(502, json.dumps({'error': 'Failed to connect to
  Maistro API'}))`;
* `except Exception`: `(500, json.dumps({'error': str(e)}))`. -/
def forward_to_maistro (payload : List Nat) (api_key override_agent debug instance_id : String)
    (net : MaistroRequest → NetOutcome) : Except PyErr (Nat × String) :=
  let req := buildMaistroRequest payload api_key override_agent debug instance_id
  match net req with
  | .response status body =>
    match utf8DecodePy body with
    | .ok response_body => .ok (status, response_body)
    | .error e => .ok (500, jsonDumps [("error", .str (pyErrStr e))])
  | .httpError code (some body) _ =>
    match utf8DecodePy body with
    | .ok error_body => .ok (code, error_body)
    | .error e => .error e
  | .httpError code none msg => .ok (code, msg)
  | .urlError _ => .ok (502, jsonDumps [("error", .str "Failed to connect to Maistro API")])
  | .otherError msg => .ok (500, jsonDumps [("error", .str msg)])

/-! ## `lambda_handler` (app.py lines 96-188) -/

/-- The API Gateway event, with the three keys the source reads; `none`
models an absent key, to which the source applies `.get` defaults
(`{}`, `''`, `False`). Header values are the string-typed headers the
source expects. -/
structure LambdaEvent where
  headers : Option (List (String × String))
  body : Option String
  isBase64Encoded : Option Bool
deriving Repr, DecidableEq

/-- The `{'statusCode': ..., 'body': ...}` dictionary the handler returns. -/
structure LambdaResponse where
  statusCode : Nat
  body : String
deriving Repr, DecidableEq

/-- The process environment (`os.environ`), a string-keyed dictionary. -/
def Env : Type := List (String × String)

/-- `os.environ.get(k)`: the value of the first binding of `k`, if any. -/
def envGet (env : Env) (k : String) : Option String :=
  (List.find? (fun p => p.1 == k) env).map (·.2)

/-- Python truthiness of an optional string: `None` and `''` are falsy. -/
def pyTruthyOpt : Option String → Bool
  | none => false
  | some s => !s.isEmpty

/-- `str.lower()`, characterwise (header names are ASCII, where Python's
`str.lower` and `Char.toLower` agree). -/
def pyLower (s : String) : String := ⟨s.toList.map Char.toLower⟩

/-- The dictionary comprehension `{k.lower(): v for k, v in headers.items()}`:
lowercase every key; on collisions the later binding wins, so a lookup takes
the value of the last matching entry. -/
def headersLowerGet (headers : List (String × String)) (k : String) : Option String :=
  (List.find? (fun p => p.1 == k) (headers.map (fun p => (pyLower p.1, p.2))).reverse).map (·.2)

/-- Lines 138-144: `body = event.get('body', '')`,
`is_base64 = event.get('isBase64Encoded', False)`, then either
`base64.b64decode(body)` — whose exceptions are NOT caught — or
`body.encode('utf-8')`. -/
def decodeBody (event : LambdaEvent) : Except PyErr (List Nat) :=
  let body := event.body.getD ""
  let is_base64 := event.isBase64Encoded.getD false
  if is_base64 then b64decodePy body else .ok (utf8Encode body)

/-- `lambda_handler(event, context)` over environment `env` and network
oracle `net`. The first component is the returned response, or
`Except.error` when an exception propagates out of the handler (the handler
has no `try/except` of its own, so decode errors at line 142 and the
forwarder's `UnicodeDecodeError` at line 85 escape). The second component is
the outbound request issued — `none` when `forward_to_maistro` was never
invoked, and still `some` when the forwarder raised after making its call.
On the forwarding path the secret and API key are known present (the
truthiness check passed), so `Option.getD ""` extracts the values the source
holds. -/
def lambda_handler (env : Env) (event : LambdaEvent) (net : MaistroRequest → NetOutcome) :
    Except PyErr LambdaResponse × Option MaistroRequest :=
  let shopify_secret := envGet env "SHOPIFY_SECRET"
  let maistro_api_key := envGet env "MAISTRO_API_KEY"
  let maistro_instance_id := (envGet env "MAISTRO_INSTANCE_ID").getD "my-instance"
  let maistro_override_agent := (envGet env "MAISTRO_OVERRIDE_AGENT").getD "test_order_fulfilled"
  let maistro_debug := (envGet env "MAISTRO_DEBUG").getD "false"
  if !pyTruthyOpt shopify_secret || !pyTruthyOpt maistro_api_key || maistro_instance_id.isEmpty then
    (.ok ⟨500, jsonDumps [("error", .str "Configuration error")]⟩, none)
  else
    let headers := event.headers.getD []
    let hmac_header := headersLowerGet headers "x-shopify-hmac-sha256"
    if !pyTruthyOpt hmac_header then
      (.ok ⟨401, jsonDumps [("error", .str "Missing signature header")]⟩, none)
    else
      match decodeBody event with
      | .error e => (.error e, none)
      | .ok body_bytes =>
        if !verify_shopify_signature body_bytes (hmac_header.getD "") (shopify_secret.getD "") then
          (.ok ⟨401, jsonDumps [("error", .str "Invalid signature")]⟩, none)
        else
          let req := buildMaistroRequest body_bytes (maistro_api_key.getD "")
            maistro_override_agent maistro_debug maistro_instance_id
          match forward_to_maistro body_bytes (maistro_api_key.getD "")
            maistro_override_agent maistro_debug maistro_instance_id net with
          | .error e => (.error e, some req)
          | .ok result =>
            let status_code := result.1
            let response_body := result.2
            if 200 ≤ status_code ∧ status_code < 300 then
              (.ok ⟨200, jsonDumps [("message", .str "Webhook processed successfully"),
                                    ("maistro_status", .nat status_code)]⟩, some req)
            else
              (.ok ⟨200, jsonDumps [("message", .str "Webhook received but forwarding failed"),
                                    ("maistro_status", .nat status_code),
                                    ("error", .str response_body)]⟩, some req)

/-! ### Validation against CPython reference vectors -/

example : sha256 (utf8Encode "abc") =
    [186, 120, 22, 191, 143, 1, 207, 234, 65, 65, 64, 222, 93, 174, 34, 35,
     176, 3, 97, 163, 150, 23, 122, 156, 180, 16, 255, 97, 242, 0, 21, 173] := by decide

example : b64encode (hmacSha256 (utf8Encode "s") (utf8Encode "x")) =
    "zvsQXuIplvsWftYGR40pMbh6o6uZtLBLaMT8Fsi0mjA=" := by decide

example : b64encode (utf8Encode "a") = "YQ==" := by decide
example : b64decodePy "ab==" = .ok [105] := by decide
example : b64decodePy "abc=" = .ok [105, 183] := by decide
example : b64decodePy " a b\ncd==" = .ok [105, 183, 29] := by decide
example : b64decodePy "a" = .error (.binasciiError "Incorrect padding") := by decide
example : b64decodePy "YW=" = .error (.binasciiError "Incorrect padding") := by decide
example : (b64decodePy "é").isOk = false := by decide

example : jsonDumps [("error", .str "Configuration error")] =
    "\x7b\"error\": \"Configuration error\"\x7d" := by decide

example : jsonDumps [("message", .str "Webhook processed successfully"), ("maistro_status", .nat 200)] =
    "\x7b\"message\": \"Webhook processed successfully\", \"maistro_status\": 200\x7d" := by decide

/-! #### `bytes.decode('utf-8')` against CPython reference vectors -/

example : utf8DecodePy (utf8Encode "héllo 😀") = .ok "héllo 😀" := by decide

example : utf8DecodePy [255] = .error (.unicodeDecodeError
    "'utf-8' codec can't decode byte 0xff in position 0: invalid start byte") := by decide

example : utf8DecodePy [97, 98, 99, 255, 100] = .error (.unicodeDecodeError
    "'utf-8' codec can't decode byte 0xff in position 3: invalid start byte") := by decide

example : utf8DecodePy [194] = .error (.unicodeDecodeError
    "'utf-8' codec can't decode byte 0xc2 in position 0: unexpected end of data") := by decide

example : utf8DecodePy [226, 130] = .error (.unicodeDecodeError
    "'utf-8' codec can't decode bytes in position 0-1: unexpected end of data") := by decide

example : utf8DecodePy [226, 130, 40] = .error (.unicodeDecodeError
    "'utf-8' codec can't decode bytes in position 0-1: invalid continuation byte") := by decide

example : utf8DecodePy [224, 128, 175] = .error (.unicodeDecodeError
    "'utf-8' codec can't decode byte 0xe0 in position 0: invalid continuation byte") := by decide

example : utf8DecodePy [237, 160, 128] = .error (.unicodeDecodeError
    "'utf-8' codec can't decode byte 0xed in position 0: invalid continuation byte") := by decide

example : utf8DecodePy [244, 144, 128, 128] = .error (.unicodeDecodeError
    "'utf-8' codec can't decode byte 0xf4 in position 0: invalid continuation byte") := by decide

example : utf8DecodePy [240, 144, 140, 40] = .error (.unicodeDecodeError
    "'utf-8' codec can't decode bytes in position 0-2: invalid continuation byte") := by decide

example : utf8DecodePy [240, 144, 128] = .error (.unicodeDecodeError
    "'utf-8' codec can't decode bytes in position 0-2: unexpected end of data") := by decide

/-! ### End-to-end sanity checks of the handler embedding -/

example :
    lambda_handler [("MAISTRO_API_KEY", "k")] ⟨none, none, none⟩ (fun _ => .response 200 []) =
    (.ok ⟨500, jsonDumps [("error", .str "Configuration error")]⟩, none) := by decide

example :
    lambda_handler [("SHOPIFY_SECRET", "s"), ("MAISTRO_API_KEY", "k")]
      ⟨some [("Host", "x")], some "b", none⟩ (fun _ => .response 200 []) =
    (.ok ⟨401, jsonDumps [("error", .str "Missing signature header")]⟩, none) := by decide

example :
    lambda_handler [("SHOPIFY_SECRET", "s"), ("MAISTRO_API_KEY", "k")]
      ⟨some [("X-Shopify-Hmac-Sha256", "sig")], some "a", some true⟩ (fun _ => .response 200 []) =
    (.error (.binasciiError "Incorrect padding"), none) := by decide

example :
    lambda_handler [("SHOPIFY_SECRET", "s"), ("MAISTRO_API_KEY", "k")]
      ⟨some [("X-Shopify-Hmac-Sha256", "bad")], some "x", some false⟩ (fun _ => .response 200 []) =
    (.ok ⟨401, jsonDumps [("error", .str "Invalid signature")]⟩, none) := by decide

example :
    lambda_handler [("SHOPIFY_SECRET", "s"), ("MAISTRO_API_KEY", "k")]
      ⟨some [("X-Shopify-Hmac-Sha256", "zvsQXuIplvsWftYGR40pMbh6o6uZtLBLaMT8Fsi0mjA=")],
       some "x", some false⟩ (fun _ => .response 200 (utf8Encode "ok")) =
    (.ok ⟨200, jsonDumps [("message", .str "Webhook processed successfully"),
                          ("maistro_status", .nat 200)]⟩,
     some (buildMaistroRequest (utf8Encode "x") "k" "test_order_fulfilled" "false"
        "my-instance")) := by decide

example :
    lambda_handler [("SHOPIFY_SECRET", "s"), ("MAISTRO_API_KEY", "k")]
      ⟨some [("X-Shopify-Hmac-Sha256", "zvsQXuIplvsWftYGR40pMbh6o6uZtLBLaMT8Fsi0mjA=")],
       some "x", some false⟩ (fun _ => .httpError 503 (some [255]) "HTTP Error 503") =
    (.error (.unicodeDecodeError
        "'utf-8' codec can't decode byte 0xff in position 0: invalid start byte"),
     some (buildMaistroRequest (utf8Encode "x") "k" "test_order_fulfilled" "false"
        "my-instance")) := by decide

end WebhookApp

namespace WebhookApp

/-! ## Helper lemmas -/

/-- `Char.ofNat` is faithful below 128. -/
theorem char_ofNat_toNat_lt : ∀ m, m < 128 → (Char.ofNat m).toNat = m := by decide

/-- Every character the base64 alphabet function produces is ASCII. -/
theorem b64Char_toNat_lt (n : Nat) : (b64Char n).toNat < 128 := by
  unfold b64Char
  split_ifs with h1 h2 h3 h4
  · rw [char_ofNat_toNat_lt _ (by omega)]; omega
  · rw [char_ofNat_toNat_lt _ (by omega)]; omega
  · rw [char_ofNat_toNat_lt _ (by omega)]; omega
  · decide
  · decide

/-- A base64 encoding consists of ASCII characters only. -/
theorem b64encodeChars_ascii : (bs : List Nat) →
    (b64encodeChars bs).all (fun c => decide (c.toNat < 128)) = true
  | [] => rfl
  | [a] => by simp [b64encodeChars, b64Char_toNat_lt]
  | [a, b] => by simp [b64encodeChars, b64Char_toNat_lt]
  | a :: b :: c :: rest => by
    simp only [b64encodeChars, List.all_cons, Bool.and_eq_true, decide_eq_true_eq]
    exact ⟨b64Char_toNat_lt _, b64Char_toNat_lt _, b64Char_toNat_lt _, b64Char_toNat_lt _,
      b64encodeChars_ascii rest⟩

/-- The character list underlying a base64 encoding. -/
theorem b64encode_toList (bs : List Nat) : (b64encode bs).toList = b64encodeChars bs := rfl

/-- Membership form of `b64encodeChars_ascii` over the encoded string's data. -/
theorem b64encode_data_ascii (bs : List Nat) : ∀ c ∈ (b64encode bs).data, c.toNat < 128 := by
  have h := b64encodeChars_ascii bs
  simp only [List.all_eq_true, decide_eq_true_eq] at h
  exact h

/-! ## C1 -/

/-- C1: for every payload byte sequence `P` and secret string `S`, verifying
the base64-encoded HMAC-SHA256 digest of `P` under `S` succeeds, and
verifying any digest string `D` different from that correct digest fails. -/
theorem verify_signature_correct (P : List Nat) (S D : String) :
    verify_shopify_signature P (b64encode (hmacSha256 (utf8Encode S) P)) S = true ∧
    (D ≠ b64encode (hmacSha256 (utf8Encode S) P) →
      verify_shopify_signature P D S = false) := by
  have hall : ∀ bs : List Nat,
      ((b64encode bs).toList.all fun c => decide (c.toNat < 128)) = true :=
    fun bs => b64encodeChars_ascii bs
  constructor
  · unfold verify_shopify_signature compare_digest
    simp only []
    rw [if_pos ⟨hall _, hall _⟩]
    simp
  · intro hD
    unfold verify_shopify_signature compare_digest
    simp only []
    by_cases hA : (D.toList.all fun c => decide (c.toNat < 128)) = true
    · rw [if_pos ⟨hall _, hA⟩]
      simp only [beq_eq_false_iff_ne]
      exact Ne.symm hD
    · rw [if_neg (fun hc => hA hc.2)]

/-- Witness for C1 at a concrete payload, secret and wrong digest. -/
theorem verify_signature_correct_witness :
    "AAAA" ≠ b64encode (hmacSha256 (utf8Encode "s") (utf8Encode "x")) ∧
    verify_shopify_signature (utf8Encode "x")
      (b64encode (hmacSha256 (utf8Encode "s") (utf8Encode "x"))) "s" = true ∧
    verify_shopify_signature (utf8Encode "x") "AAAA" "s" = false := by
  have h := verify_signature_correct (utf8Encode "x") "s" "AAAA"
  exact ⟨by decide, h.1, h.2 (by decide)⟩

/-! ## C5 (corrected) -/

/-- Counterexample to C5 as stated: the forwarder DOES raise to its caller.
A completed `HTTPError` exchange whose readable body is the single byte
`0xff` makes `e.read().decode('utf-8')` (line 85, inside the except-HTTPError
clause) raise `UnicodeDecodeError`, which no sibling clause catches. -/
theorem forwarder_raises_on_bad_error_body :
    forward_to_maistro [] "k" "agent" "false" "inst"
      (fun _ => .httpError 503 (some [255]) "HTTP Error 503: Service Unavailable") =
      .error (.unicodeDecodeError
        "'utf-8' codec can't decode byte 0xff in position 0: invalid start byte") := by decide

/-- C5 amended: the forwarder raises exactly when an `HTTPError` exchange has
a readable body that is not valid UTF-8 (the decode inside the except clause
propagates). Otherwise it returns a pair: a completed exchange whose body
decodes is returned verbatim; a `urlopen`-returned exchange whose body does
NOT decode is converted by the final generic except to a synthesized 500 with
a JSON body carrying the decode error text (not verbatim); an `HTTPError`
without a body yields its code and message; a connection-level failure yields
502 with a JSON connectivity-error body; any other exception yields 500 with
a JSON error body carrying its description. -/
theorem forward_to_maistro_spec (payload : List Nat)
    (api_key override_agent debug instance_id : String)
    (net : MaistroRequest → NetOutcome) :
    (∀ s b ds, net (buildMaistroRequest payload api_key override_agent debug instance_id) =
        .response s b → utf8DecodePy b = .ok ds →
      forward_to_maistro payload api_key override_agent debug instance_id net = .ok (s, ds)) ∧
    (∀ s b e, net (buildMaistroRequest payload api_key override_agent debug instance_id) =
        .response s b → utf8DecodePy b = .error e →
      forward_to_maistro payload api_key override_agent debug instance_id net =
        .ok (500, jsonDumps [("error", .str (pyErrStr e))])) ∧
    (∀ c b m ds, net (buildMaistroRequest payload api_key override_agent debug instance_id) =
        .httpError c (some b) m → utf8DecodePy b = .ok ds →
      forward_to_maistro payload api_key override_agent debug instance_id net = .ok (c, ds)) ∧
    (∀ c b m e, net (buildMaistroRequest payload api_key override_agent debug instance_id) =
        .httpError c (some b) m → utf8DecodePy b = .error e →
      forward_to_maistro payload api_key override_agent debug instance_id net = .error e) ∧
    (∀ c m, net (buildMaistroRequest payload api_key override_agent debug instance_id) =
        .httpError c none m →
      forward_to_maistro payload api_key override_agent debug instance_id net = .ok (c, m)) ∧
    (∀ m, net (buildMaistroRequest payload api_key override_agent debug instance_id) =
        .urlError m →
      forward_to_maistro payload api_key override_agent debug instance_id net =
        .ok (502, jsonDumps [("error", .str "Failed to connect to Maistro API")])) ∧
    (∀ m, net (buildMaistroRequest payload api_key override_agent debug instance_id) =
        .otherError m →
      forward_to_maistro payload api_key override_agent debug instance_id net =
        .ok (500, jsonDumps [("error", .str m)])) := by
  refine ⟨?_, ?_, ?_, ?_, ?_, ?_, ?_⟩ <;> intros <;> simp_all [forward_to_maistro]

/-- Witness for C5 amended: a completed 201 exchange with a UTF-8 body is
returned verbatim. -/
theorem forward_to_maistro_spec_witness :
    forward_to_maistro [1, 2] "k" "agent" "true" "inst"
      (fun _ => .response 201 (utf8Encode "created")) = .ok (201, "created") :=
  (forward_to_maistro_spec [1, 2] "k" "agent" "true" "inst"
    (fun _ => .response 201 (utf8Encode "created"))).1 201 (utf8Encode "created") "created"
    rfl (by decide)

end WebhookApp

namespace WebhookApp

/-- A nonempty string is not `isEmpty` (Python truthiness of a string). -/
theorem isEmpty_false_of_ne (s : String) (h : s ≠ "") : s.isEmpty = false := by
  rw [Bool.eq_false_iff]
  intro hc
  exact h ((String.isEmpty_iff s).mp hc)

/-- Python truthiness of an absent value. -/
theorem pyTruthyOpt_none : pyTruthyOpt none = false := rfl

/-- Python truthiness of a present string value. -/
theorem pyTruthyOpt_some (s : String) : pyTruthyOpt (some s) = !s.isEmpty := rfl

/-! ## C7 -/

/-- C7: with complete configuration, an event with no signature header under
any letter-casing (no header key lowercases to `x-shopify-hmac-sha256`) gets
status 401 with the missing-signature body, whatever the event's body is. -/
theorem missing_signature_response (env : Env) (event : LambdaEvent)
    (net : MaistroRequest → NetOutcome)
    (hsec : pyTruthyOpt (envGet env "SHOPIFY_SECRET") = true)
    (hkey : pyTruthyOpt (envGet env "MAISTRO_API_KEY") = true)
    (hiid : ((envGet env "MAISTRO_INSTANCE_ID").getD "my-instance").isEmpty = false)
    (hhdr : headersLowerGet (event.headers.getD []) "x-shopify-hmac-sha256" = none) :
    lambda_handler env event net =
      (.ok ⟨401, jsonDumps [("error", .str "Missing signature header")]⟩, none) := by
  unfold lambda_handler
  simp [hsec, hkey, hiid, hhdr, pyTruthyOpt_none]

/-- Witness for C7: complete configuration, unrelated header, base64 body. -/
theorem missing_signature_response_witness :
    lambda_handler [("SHOPIFY_SECRET", "s"), ("MAISTRO_API_KEY", "k")]
      ⟨some [("Content-Type", "application/json")], some "ab==", some true⟩
      (fun _ => .response 200 []) =
      (.ok ⟨401, jsonDumps [("error", .str "Missing signature header")]⟩, none) :=
  missing_signature_response _ _ _ (by decide) (by decide) (by decide) (by decide)

/-! ## C10 -/

/-- C10: with complete configuration, a signature header present with an
empty value is treated as missing (Python truthiness testing of the header
value): the handler answers 401 with the missing-signature body, not the
invalid-signature body. -/
theorem empty_signature_header_missing (env : Env) (event : LambdaEvent)
    (net : MaistroRequest → NetOutcome)
    (hsec : pyTruthyOpt (envGet env "SHOPIFY_SECRET") = true)
    (hkey : pyTruthyOpt (envGet env "MAISTRO_API_KEY") = true)
    (hiid : ((envGet env "MAISTRO_INSTANCE_ID").getD "my-instance").isEmpty = false)
    (hhdr : headersLowerGet (event.headers.getD []) "x-shopify-hmac-sha256" = some "") :
    lambda_handler env event net =
      (.ok ⟨401, jsonDumps [("error", .str "Missing signature header")]⟩, none) := by
  unfold lambda_handler
  simp [hsec, hkey, hiid, hhdr, show pyTruthyOpt (some "") = false from rfl]

/-- Witness for C10: the signature header present with the empty string. -/
theorem empty_signature_header_missing_witness :
    lambda_handler [("SHOPIFY_SECRET", "s"), ("MAISTRO_API_KEY", "k")]
      ⟨some [("X-Shopify-Hmac-Sha256", "")], some "body", some false⟩
      (fun _ => .response 200 []) =
      (.ok ⟨401, jsonDumps [("error", .str "Missing signature header")]⟩, none) :=
  empty_signature_header_missing _ _ _ (by decide) (by decide) (by decide) (by decide)

/-! ## C3 -/

/-- C3: with complete configuration, a present signature header that fails
verification of the decoded body against the configured secret gets status
401 with the invalid-signature body, and the forwarder is never invoked (the
outbound-request trace is `none`). -/
theorem invalid_signature_response (env : Env) (event : LambdaEvent)
    (net : MaistroRequest → NetOutcome) (secret api_key hdr : String) (bs : List Nat)
    (hsecv : envGet env "SHOPIFY_SECRET" = some secret) (hsecne : secret ≠ "")
    (hkeyv : envGet env "MAISTRO_API_KEY" = some api_key) (hkeyne : api_key ≠ "")
    (hiid : ((envGet env "MAISTRO_INSTANCE_ID").getD "my-instance").isEmpty = false)
    (hhdr : headersLowerGet (event.headers.getD []) "x-shopify-hmac-sha256" = some hdr)
    (hdrne : hdr ≠ "")
    (hbody : decodeBody event = .ok bs)
    (hver : verify_shopify_signature bs hdr secret = false) :
    lambda_handler env event net =
      (.ok ⟨401, jsonDumps [("error", .str "Invalid signature")]⟩, none) := by
  unfold lambda_handler
  simp [hsecv, hkeyv, hiid, hhdr, hbody, hver, pyTruthyOpt_some,
    isEmpty_false_of_ne _ hsecne, isEmpty_false_of_ne _ hkeyne, isEmpty_false_of_ne _ hdrne]

/-- Witness for C3: a signature that does not match the secret. -/
theorem invalid_signature_response_witness :
    lambda_handler [("SHOPIFY_SECRET", "s"), ("MAISTRO_API_KEY", "k")]
      ⟨some [("X-Shopify-Hmac-Sha256", "AAAA")], some "x", some false⟩
      (fun _ => .response 200 []) =
      (.ok ⟨401, jsonDumps [("error", .str "Invalid signature")]⟩, none) :=
  invalid_signature_response _ _ _ "s" "k" "AAAA" (utf8Encode "x")
    (by decide) (by decide) (by decide) (by decide) (by decide) (by decide) (by decide)
    (by decide) (by decide)

end WebhookApp

namespace WebhookApp

/-! ## C4 -/

/-- C4: for a verified event, the handler's response is determined by the
forwarder's result `(s, b)`: a 2xx `s` yields status 200 with the success
message and `maistro_status = s`; any other `s` (including the synthesized
502/500 failures) still yields status 200, with the failure message,
`maistro_status = s`, and an `error` field carrying the downstream text `b`.
Either way the outbound request was issued. -/
theorem forwarded_response (env : Env) (event : LambdaEvent)
    (net : MaistroRequest → NetOutcome) (secret api_key hdr : String) (bs : List Nat)
    (hsecv : envGet env "SHOPIFY_SECRET" = some secret) (hsecne : secret ≠ "")
    (hkeyv : envGet env "MAISTRO_API_KEY" = some api_key) (hkeyne : api_key ≠ "")
    (hiid : ((envGet env "MAISTRO_INSTANCE_ID").getD "my-instance").isEmpty = false)
    (hhdr : headersLowerGet (event.headers.getD []) "x-shopify-hmac-sha256" = some hdr)
    (hdrne : hdr ≠ "")
    (hbody : decodeBody event = .ok bs)
    (hver : verify_shopify_signature bs hdr secret = true)
    (s : Nat) (b : String)
    (hfwd : forward_to_maistro bs api_key
        ((envGet env "MAISTRO_OVERRIDE_AGENT").getD "test_order_fulfilled")
        ((envGet env "MAISTRO_DEBUG").getD "false")
        ((envGet env "MAISTRO_INSTANCE_ID").getD "my-instance") net = .ok (s, b)) :
    lambda_handler env event net =
      (if 200 ≤ s ∧ s < 300 then
        (.ok ⟨200, jsonDumps [("message", .str "Webhook processed successfully"),
                              ("maistro_status", .nat s)]⟩,
         some (buildMaistroRequest bs api_key
           ((envGet env "MAISTRO_OVERRIDE_AGENT").getD "test_order_fulfilled")
           ((envGet env "MAISTRO_DEBUG").getD "false")
           ((envGet env "MAISTRO_INSTANCE_ID").getD "my-instance")))
      else
        (.ok ⟨200, jsonDumps [("message", .str "Webhook received but forwarding failed"),
                              ("maistro_status", .nat s), ("error", .str b)]⟩,
         some (buildMaistroRequest bs api_key
           ((envGet env "MAISTRO_OVERRIDE_AGENT").getD "test_order_fulfilled")
           ((envGet env "MAISTRO_DEBUG").getD "false")
           ((envGet env "MAISTRO_INSTANCE_ID").getD "my-instance")))) := by
  unfold lambda_handler
  simp [hsecv, hkeyv, hiid, hhdr, hbody, hver, hfwd, pyTruthyOpt_some,
    isEmpty_false_of_ne _ hsecne, isEmpty_false_of_ne _ hkeyne, isEmpty_false_of_ne _ hdrne]

/-- Witness for C4: a correctly signed event forwarded to a downstream that
answers 200. -/
theorem forwarded_response_witness :
    lambda_handler [("SHOPIFY_SECRET", "s"), ("MAISTRO_API_KEY", "k")]
      ⟨some [("X-Shopify-Hmac-Sha256",
        b64encode (hmacSha256 (utf8Encode "s") (utf8Encode "x")))], some "x", some false⟩
      (fun _ => .response 200 (utf8Encode "ok")) =
      (.ok ⟨200, jsonDumps [("message", .str "Webhook processed successfully"),
                            ("maistro_status", .nat 200)]⟩,
       some (buildMaistroRequest (utf8Encode "x") "k" "test_order_fulfilled" "false"
         "my-instance")) := by
  have h := forwarded_response [("SHOPIFY_SECRET", "s"), ("MAISTRO_API_KEY", "k")]
    ⟨some [("X-Shopify-Hmac-Sha256",
      b64encode (hmacSha256 (utf8Encode "s") (utf8Encode "x")))], some "x", some false⟩
    (fun _ => .response 200 (utf8Encode "ok")) "s" "k"
    (b64encode (hmacSha256 (utf8Encode "s") (utf8Encode "x"))) (utf8Encode "x")
    (by decide) (by decide) (by decide) (by decide) (by decide) (by decide) (by decide)
    (by decide) (by decide) 200 "ok" (by decide)
  exact h.trans (by decide)

/-! ## C8 -/

/-- C8: for a verified event, the outbound request handed to the forwarder
carries as its data exactly the decoded inbound body bytes, unchanged —
whatever the downstream then does (the request was issued with those bytes
even on runs where the forwarder later raises). -/
theorem forwarded_body_verbatim (env : Env) (event : LambdaEvent)
    (net : MaistroRequest → NetOutcome) (secret api_key hdr : String) (bs : List Nat)
    (hsecv : envGet env "SHOPIFY_SECRET" = some secret) (hsecne : secret ≠ "")
    (hkeyv : envGet env "MAISTRO_API_KEY" = some api_key) (hkeyne : api_key ≠ "")
    (hiid : ((envGet env "MAISTRO_INSTANCE_ID").getD "my-instance").isEmpty = false)
    (hhdr : headersLowerGet (event.headers.getD []) "x-shopify-hmac-sha256" = some hdr)
    (hdrne : hdr ≠ "")
    (hbody : decodeBody event = .ok bs)
    (hver : verify_shopify_signature bs hdr secret = true) :
    ∃ outcome, lambda_handler env event net =
      (outcome, some (buildMaistroRequest bs api_key
        ((envGet env "MAISTRO_OVERRIDE_AGENT").getD "test_order_fulfilled")
        ((envGet env "MAISTRO_DEBUG").getD "false")
        ((envGet env "MAISTRO_INSTANCE_ID").getD "my-instance"))) ∧
      (buildMaistroRequest bs api_key
        ((envGet env "MAISTRO_OVERRIDE_AGENT").getD "test_order_fulfilled")
        ((envGet env "MAISTRO_DEBUG").getD "false")
        ((envGet env "MAISTRO_INSTANCE_ID").getD "my-instance")).data = bs := by
  unfold lambda_handler
  simp only [hsecv, hkeyv, hiid, hhdr, hbody, hver, pyTruthyOpt_some, Option.getD_some,
    isEmpty_false_of_ne _ hsecne, isEmpty_false_of_ne _ hkeyne, isEmpty_false_of_ne _ hdrne,
    Bool.not_false, Bool.not_true, Bool.or_self, Bool.or_false, Bool.false_or,
    if_false, Bool.false_eq_true, if_true]
  rcases hf : forward_to_maistro bs api_key
      ((envGet env "MAISTRO_OVERRIDE_AGENT").getD "test_order_fulfilled")
      ((envGet env "MAISTRO_DEBUG").getD "false")
      ((envGet env "MAISTRO_INSTANCE_ID").getD "my-instance") net with e | r
  · simp only [hf]
    exact ⟨_, rfl, rfl⟩
  · simp only [hf]
    by_cases hc : 200 ≤ r.1 ∧ r.1 < 300
    · simp only [if_pos hc]
      exact ⟨_, rfl, rfl⟩
    · simp only [if_neg hc]
      exact ⟨_, rfl, rfl⟩

/-- Witness for C8: a correctly signed event with a different secret and a
failing downstream; the outbound request still carries the decoded body. -/
theorem forwarded_body_verbatim_witness :
    ∃ outcome, lambda_handler [("SHOPIFY_SECRET", "t"), ("MAISTRO_API_KEY", "k2")]
      ⟨some [("X-Shopify-Hmac-Sha256",
        b64encode (hmacSha256 (utf8Encode "t") (utf8Encode "y")))], some "y", some false⟩
      (fun _ => .response 503 (utf8Encode "bad")) =
      (outcome, some (buildMaistroRequest (utf8Encode "y") "k2" "test_order_fulfilled" "false"
        "my-instance")) ∧
      (buildMaistroRequest (utf8Encode "y") "k2" "test_order_fulfilled" "false"
        "my-instance").data = utf8Encode "y" := by
  have h := forwarded_body_verbatim [("SHOPIFY_SECRET", "t"), ("MAISTRO_API_KEY", "k2")]
    ⟨some [("X-Shopify-Hmac-Sha256",
      b64encode (hmacSha256 (utf8Encode "t") (utf8Encode "y")))], some "y", some false⟩
    (fun _ => .response 503 (utf8Encode "bad")) "t" "k2"
    (b64encode (hmacSha256 (utf8Encode "t") (utf8Encode "y"))) (utf8Encode "y")
    (by decide) (by decide) (by decide) (by decide) (by decide) (by decide) (by decide)
    (by decide) (by decide)
  exact h

end WebhookApp

namespace WebhookApp

/-! ## C9 -/

/-- Two header lists whose entries agree pointwise up to the letter-casing of
their names have the same lowercase-normalized form. -/
theorem lower_map_eq : (hs1 hs2 : List (String × String)) → hs1.length = hs2.length →
    ((hs1.zip hs2).all fun pq => pyLower pq.1.1 == pyLower pq.2.1 && pq.1.2 == pq.2.2) = true →
    hs1.map (fun p => (pyLower p.1, p.2)) = hs2.map (fun p => (pyLower p.1, p.2))
  | [], [], _, _ => rfl
  | [], _ :: _, hlen, _ => by simp at hlen
  | _ :: _, [], hlen, _ => by simp at hlen
  | p :: t1, q :: t2, hlen, hall => by
    simp only [List.zip_cons_cons, List.all_cons, Bool.and_eq_true, beq_iff_eq] at hall
    simp only [List.map_cons, List.cons.injEq]
    refine ⟨?_, lower_map_eq t1 t2 (by simpa using hlen) hall.2⟩
    rw [hall.1.1, hall.1.2]

/-- C9: two events that differ only in the letter-casing of their header
names (pointwise: same values, names equal after lowercasing — in particular
two casings of the signature header) produce identical handler results, for
any environment, body, encoding flag and network behavior. -/
theorem header_casing_irrelevant (env : Env) (net : MaistroRequest → NetOutcome)
    (body : Option String) (flag : Option Bool) (hs1 hs2 : List (String × String))
    (hlen : hs1.length = hs2.length)
    (hkeys : ((hs1.zip hs2).all
      fun pq => pyLower pq.1.1 == pyLower pq.2.1 && pq.1.2 == pq.2.2) = true) :
    lambda_handler env ⟨some hs1, body, flag⟩ net =
      lambda_handler env ⟨some hs2, body, flag⟩ net := by
  have hget : headersLowerGet hs1 "x-shopify-hmac-sha256" =
      headersLowerGet hs2 "x-shopify-hmac-sha256" := by
    unfold headersLowerGet
    rw [lower_map_eq hs1 hs2 hlen hkeys]
  simp only [lambda_handler, decodeBody, Option.getD_some]
  rw [hget]

/-- Witness for C9: the signature header in original and lowercase spelling. -/
theorem header_casing_irrelevant_witness :
    lambda_handler [("SHOPIFY_SECRET", "s"), ("MAISTRO_API_KEY", "k")]
      ⟨some [("X-Shopify-Hmac-Sha256", "AAAA")], some "x", some false⟩
      (fun _ => .response 200 []) =
    lambda_handler [("SHOPIFY_SECRET", "s"), ("MAISTRO_API_KEY", "k")]
      ⟨some [("x-shopify-hmac-sha256", "AAAA")], some "x", some false⟩
      (fun _ => .response 200 []) :=
  header_casing_irrelevant _ _ _ _ _ _ (by decide) (by decide)

/-! ## C6 (corrected) -/

/-- Counterexample to C6 as stated: with the secret and API key present but
`MAISTRO_INSTANCE_ID` absent from the environment, the handler does not
return the 500 configuration error — it proceeds (here to the 401
missing-signature response) using the `'my-instance'` default. -/
theorem instance_id_absent_not_rejected :
    envGet [("SHOPIFY_SECRET", "s"), ("MAISTRO_API_KEY", "k")] "MAISTRO_INSTANCE_ID" = none ∧
    lambda_handler [("SHOPIFY_SECRET", "s"), ("MAISTRO_API_KEY", "k")] ⟨none, none, none⟩
      (fun _ => .response 200 []) =
      (.ok ⟨401, jsonDumps [("error", .str "Missing signature header")]⟩, none) :=
  ⟨rfl, by decide⟩

/-- C6 amended: the handler returns the 500 configuration error, with no
outbound call, when the secret or the API key is absent or empty, or when
the instance id is present but empty; an absent instance id alone is not
rejected — it silently falls back to the `'my-instance'` default. -/
theorem config_error_response (env : Env) (event : LambdaEvent)
    (net : MaistroRequest → NetOutcome)
    (h : pyTruthyOpt (envGet env "SHOPIFY_SECRET") = false ∨
         pyTruthyOpt (envGet env "MAISTRO_API_KEY") = false ∨
         envGet env "MAISTRO_INSTANCE_ID" = some "") :
    lambda_handler env event net =
      (.ok ⟨500, jsonDumps [("error", .str "Configuration error")]⟩, none) := by
  unfold lambda_handler
  rcases h with h | h | h <;> simp [h, show ("".isEmpty : Bool) = true from rfl]

/-- Witness for C6 amended: an empty environment is rejected. -/
theorem config_error_response_witness :
    pyTruthyOpt (envGet [] "SHOPIFY_SECRET") = false ∧
    lambda_handler [] ⟨none, none, none⟩ (fun _ => .response 200 []) =
      (.ok ⟨500, jsonDumps [("error", .str "Configuration error")]⟩, none) :=
  ⟨by decide, config_error_response [] ⟨none, none, none⟩ (fun _ => .response 200 [])
    (Or.inl (by decide))⟩

/-! ## C2 (corrected) -/

/-- Counterexample to C2 as stated: an event whose body is not valid base64
while the transport-encoding flag is set (configuration complete, signature
header present) makes `base64.b64decode` raise, and that exception
propagates out of `lambda_handler` — the trigger layer gets no response. -/
theorem invalid_base64_raises :
    lambda_handler [("SHOPIFY_SECRET", "s"), ("MAISTRO_API_KEY", "k")]
      ⟨some [("X-Shopify-Hmac-Sha256", "sig")], some "a", some true⟩
      (fun _ => .response 200 []) =
      (.error (.binasciiError "Incorrect padding"), none) := by decide

/-- The forwarder returns a pair whenever no downstream `HTTPError` carries
an undecodable readable body — that decode is its only raising path. -/
theorem forward_ok_of_decodable (payload : List Nat)
    (api_key override_agent debug instance_id : String) (net : MaistroRequest → NetOutcome)
    (hnet : ∀ c b m,
      net (buildMaistroRequest payload api_key override_agent debug instance_id) =
        .httpError c (some b) m → ∃ s, utf8DecodePy b = .ok s) :
    ∃ r, forward_to_maistro payload api_key override_agent debug instance_id net = .ok r := by
  cases hn : net (buildMaistroRequest payload api_key override_agent debug instance_id) with
  | response s b =>
    unfold forward_to_maistro
    simp only [hn]
    cases hu : utf8DecodePy b with
    | ok ds => exact ⟨_, rfl⟩
    | error e => exact ⟨_, rfl⟩
  | httpError c fp m =>
    cases fp with
    | none =>
      unfold forward_to_maistro
      simp only [hn]
      exact ⟨_, rfl⟩
    | some b =>
      unfold forward_to_maistro
      simp only [hn]
      cases hu : utf8DecodePy b with
      | ok ds => exact ⟨_, rfl⟩
      | error e =>
        obtain ⟨s0, hs0⟩ := hnet c b m hn
        rw [hu] at hs0
        exact Except.noConfusion hs0
  | urlError m =>
    unfold forward_to_maistro
    simp only [hn]
    exact ⟨_, rfl⟩
  | otherError m =>
    unfold forward_to_maistro
    simp only [hn]
    exact ⟨_, rfl⟩

/-- C2 amended: for every event whose body is valid base64 whenever the
transport-encoding flag is set, and for which the downstream never produces
an `HTTPError` exchange with a non-UTF-8 readable body, the handler
terminates normally with a well-formed response: an `Except.ok` status of
200, 401 or 500 and a body produced by `json.dumps`. (The excluded events
hit one of the two uncaught exception sites: `base64.b64decode` at line 142,
or `e.read().decode('utf-8')` at line 85 inside the forwarder's
except-HTTPError clause.) -/
theorem handler_total_unless_bad_base64 (env : Env) (event : LambdaEvent)
    (net : MaistroRequest → NetOutcome)
    (h : event.isBase64Encoded.getD false = true →
      ∃ bs, b64decodePy (event.body.getD "") = .ok bs)
    (hnet : ∀ r c b m, net r = .httpError c (some b) m → ∃ s, utf8DecodePy b = .ok s) :
    ∃ resp trace, lambda_handler env event net = (.ok resp, trace) ∧
      (resp.statusCode = 200 ∨ resp.statusCode = 401 ∨ resp.statusCode = 500) ∧
      ∃ obj, resp.body = jsonDumps obj := by
  unfold lambda_handler
  simp only []
  cases hd : decodeBody event with
  | error e =>
    exfalso
    unfold decodeBody at hd
    by_cases hf : event.isBase64Encoded.getD false = true
    · rw [if_pos hf] at hd
      obtain ⟨bs, hbs⟩ := h hf
      rw [hbs] at hd
      exact Except.noConfusion hd
    · rw [if_neg hf] at hd
      exact Except.noConfusion hd
  | ok bs =>
    obtain ⟨r, hr⟩ := forward_ok_of_decodable bs ((envGet env "MAISTRO_API_KEY").getD "")
      ((envGet env "MAISTRO_OVERRIDE_AGENT").getD "test_order_fulfilled")
      ((envGet env "MAISTRO_DEBUG").getD "false")
      ((envGet env "MAISTRO_INSTANCE_ID").getD "my-instance") net
      (fun c b m hn => hnet _ c b m hn)
    simp only [hd, hr]
    split
    · exact ⟨_, _, rfl, Or.inr (Or.inr rfl), _, rfl⟩
    · split
      · exact ⟨_, _, rfl, Or.inr (Or.inl rfl), _, rfl⟩
      · split
        · exact ⟨_, _, rfl, Or.inr (Or.inl rfl), _, rfl⟩
        · split
          · exact ⟨_, _, rfl, Or.inl rfl, _, rfl⟩
          · exact ⟨_, _, rfl, Or.inl rfl, _, rfl⟩

/-- Witness for C2 amended: a flag-set event with valid base64 body and a
downstream that completes with an empty (vacuously UTF-8) body. -/
theorem handler_total_unless_bad_base64_witness :
    ∃ resp trace, lambda_handler [("SHOPIFY_SECRET", "s"), ("MAISTRO_API_KEY", "k")]
      ⟨some [("X-Shopify-Hmac-Sha256", "sig")], some "ab==", some true⟩
      (fun _ => .response 200 []) = (.ok resp, trace) ∧
      (resp.statusCode = 200 ∨ resp.statusCode = 401 ∨ resp.statusCode = 500) ∧
      ∃ obj, resp.body = jsonDumps obj :=
  handler_total_unless_bad_base64 _ _ _ (fun _ => ⟨[105], by decide⟩)
    (fun _ _ _ _ hn => NetOutcome.noConfusion hn)

end WebhookApp
